import Mathlib

/-!
Verification of the intercensal projection engine of `app.py`.

The repository computes demographic-economic indicators from eight census
snapshots (1988, 1993, ..., 2018, 2023) and projects them onto intermediate
years.  This file gives a shallow embedding of the numeric core:

* `calcular_crecimiento`  — the per-period geometric growth-factor calculator
  (`app.py`, `calcular_crecimiento`, lines 1339-1363);
* `df_proyeccion_rows`    — the annual-series compounder between censuses
  (`app.py`, lines 1434-1477);
* `df_proyeccion_full` / `lookupKeepLast` — the appended 2019-2023 rows and the
  sort/deduplicate-by-year (keep last) emission (lines 1551-1654, 1699-1712);
* `proyecciones_futuras`, `proyecciones_futuras_nat` — the 2020-2022 extension
  of the population-activity and natality adapters (lines 1584-1618, 2429-2473);
* `valor_2019_proyectado_po`, `proyecciones_futuras_po` — the fixed-rate ("IMSS")
  personnel extension (lines 1539-1549, 1622-1635);
* `probabilidad_sprv`     — the survival-probability computation of the
  survival-at-k adapter (lines 3014-3037);
* `limite_superior`, `suma_sobrevivientes`, `resultados_finales`,
  `tasa_mortalidad` — the mortality adapter (lines 5174-5189, 5245-5277,
  5695-5708);
* `tabla_formato_bind`, `matriz_principal_step` — the control flow around the
  empty-filter / no-metric branch (lines 1268-1313).

Python floats are modelled as real numbers; Python's `round(x, n)` is modelled
by `round_dec n` (round to the nearest multiple of `10^(-n)`; Python resolves
exact ties to even, Mathlib's `round` rounds them up — the two agree except on
exact ties, which none of the proofs below touch).  A `NaN` value is modelled
as `Option.none`, and multiplication by `NaN` propagates `none`, as in pandas
(`optMul`).  A `None` growth-factor entry, however, only becomes `NaN` when
`pd.DataFrame` coerces its column to a float dtype, which requires the column
to also hold a float; an all-`None` column keeps object dtype and `.loc`
returns Python `None`, on which `*=` raises `TypeError` — the `Celda` /
`mulCelda` / `df_proyeccion_rows_celda` definitions model this dtype-dependent
behaviour for the zero-base claim.
-/

namespace Seirn

/-- The eight census years tagged onto the loaded CSV files
(`cargar_datos`, `mapeo_archivos`). -/
def censusYears : List ℕ := [1988, 1993, 1998, 2003, 2008, 2013, 2018, 2023]

/-- Model of Python's `round(x, n)`: round to the nearest multiple of
`10 ^ (-n)` (ties: see the file comment). -/
noncomputable def round_dec (n : ℕ) (x : ℝ) : ℝ :=
  ((round (x * 10 ^ n) : ℤ) : ℝ) / 10 ^ n

theorem round_dec_abs_sub_le (n : ℕ) (x : ℝ) :
    |round_dec n x - x| ≤ 1 / (2 * 10 ^ n) := by
  have h10 : (0:ℝ) < 10 ^ n := by positivity
  have h := abs_sub_round (x * 10 ^ n)
  have hx : round_dec n x - x = -((x * 10 ^ n - (round (x * 10 ^ n) : ℤ)) / 10 ^ n) := by
    unfold round_dec; field_simp; ring
  rw [hx, abs_neg, abs_div, abs_of_pos h10, div_le_div_iff₀ h10 (by positivity)]
  calc |x * 10 ^ n - (round (x * 10 ^ n) : ℤ)| * (2 * 10 ^ n)
      ≤ (1 / 2) * (2 * 10 ^ n) := by
        exact mul_le_mul_of_nonneg_right h (by positivity)
    _ = 1 * 10 ^ n := by ring

theorem round_dec_nonneg (n : ℕ) {x : ℝ} (hx : 0 ≤ x) : 0 ≤ round_dec n x := by
  have : (0:ℤ) ≤ round (x * 10 ^ n) := by
    rw [round_eq]
    exact Int.floor_nonneg.mpr (by positivity)
  unfold round_dec
  positivity

theorem round_dec_mono (n : ℕ) {x y : ℝ} (h : x ≤ y) : round_dec n x ≤ round_dec n y := by
  unfold round_dec
  have h10 : (0:ℝ) < 10 ^ n := by positivity
  have : round (x * 10 ^ n) ≤ round (y * 10 ^ n) := by
    rw [round_eq, round_eq]
    exact Int.floor_mono (by nlinarith)
  exact (div_le_div_iff_of_pos_right h10).mpr (by exact_mod_cast this)

theorem round_dec_one (n : ℕ) : round_dec n 1 = 1 := by
  unfold round_dec
  have h10 : (0:ℝ) < 10 ^ n := by positivity
  have : ((10:ℝ) ^ n) = (((10 ^ n : ℤ)) : ℝ) := by push_cast; ring
  rw [one_mul, this, round_intCast]
  field_simp

theorem round_dec_le_one (n : ℕ) {x : ℝ} (hx : x ≤ 1) : round_dec n x ≤ 1 := by
  have := round_dec_mono n hx
  rwa [round_dec_one] at this

/-- Growth-factor calculator (`calcular_crecimiento`, app.py lines 1339-1363).
For each pair of consecutive census totals `(total_anterior, total_actual)` it
records `round((total_actual / total_anterior) ** 0.2, 14)` when
`total_anterior > 0` and `None` otherwise. -/
noncomputable def calcular_crecimiento : List ℝ → List (Option ℝ)
  | total_anterior :: total_actual :: rest =>
      (if total_anterior > 0 then
        some (round_dec 14 ((total_actual / total_anterior) ^ (0.2 : ℝ)))
       else none) :: calcular_crecimiento (total_actual :: rest)
  | _ => []

/-- C1, claim as stated, is false: the recorded factor is rounded to 14 decimal
places, so it differs from `(total_end/total_start) ^ (1/(year_end-year_start))`
whenever that power is not a 14-decimal number.  Witness totals: start 243,
end 1 — the exact annualized factor is `(1/243) ^ (1/5) = 1/3`, whose
14-decimal rounding is `33333333333333/10^14 ≠ 1/3`. -/
theorem C1_counterexample :
    (calcular_crecimiento [243, 1]).getD 0 none ≠
      some (((1 : ℝ) / 243) ^ ((1 : ℝ) / 5)) := by
  have hpow : ((1 : ℝ) / 243) ^ ((1 : ℝ) / 5) = 1 / 3 := by
    have h3 : ((1 : ℝ) / 3) ^ (5 : ℕ) = 1 / 243 := by norm_num
    have := Real.pow_rpow_inv_natCast (x := (1:ℝ)/3) (n := 5) (by norm_num) (by norm_num)
    rw [h3] at this
    rw [show ((1:ℝ)/5) = (((5:ℕ):ℝ))⁻¹ by norm_num]
    exact this
  have hround : round_dec 14 ((1 : ℝ) / 3) = 33333333333333 / 10 ^ 14 := by
    unfold round_dec
    have : round ((1 : ℝ) / 3 * 10 ^ 14) = 33333333333333 := by
      rw [round_eq]
      apply Int.floor_eq_iff.mpr
      constructor <;> norm_num
    rw [this]
    norm_num
  simp only [calcular_crecimiento, List.getD]
  norm_num
  rw [hpow, hround]
  norm_num

/-- C1 (amended): for consecutive census columns with totals `t i`, `t (i+1)`
and `0 < t i`, the recorded growth factor equals
`(t (i+1) / t i) ^ (1/(year_end - year_start))` **rounded to 14 decimal
places** — the code's constant exponent `0.2` coincides with
`1/(year_end - year_start)` because every consecutive pair of census years is
5 years apart. -/
theorem C1_factor_rounded (t : ℕ → ℝ) (i : ℕ) (hi : i < 7) (hpos : 0 < t i) :
    (calcular_crecimiento [t 0, t 1, t 2, t 3, t 4, t 5, t 6, t 7]).getD i none =
      some (round_dec 14 ((t (i + 1) / t i) ^
        ((1 : ℝ) / (((censusYears.getD (i + 1) 0 : ℕ) : ℝ) -
          ((censusYears.getD i 0 : ℕ) : ℝ))))) := by
  have h02 : ∀ j : ℕ, j < 7 →
      ((1 : ℝ) / (((censusYears.getD (j + 1) 0 : ℕ) : ℝ) -
        ((censusYears.getD j 0 : ℕ) : ℝ))) = (0.2 : ℝ) := by
    intro j hj
    interval_cases j <;> simp [censusYears] <;> norm_num
  rw [h02 i hi]
  interval_cases i <;>
    simp only [calcular_crecimiento, List.getD, List.get?] <;>
    simp [hpos]

/-- Witness for `C1_factor_rounded` at the constant totals function `1` and
period index 0. -/
theorem C1_factor_rounded_witness :
    (calcular_crecimiento [(1:ℝ), 1, 1, 1, 1, 1, 1, 1]).getD 0 none =
      some (round_dec 14 (((1:ℝ) / 1) ^
        ((1 : ℝ) / (((censusYears.getD 1 0 : ℕ) : ℝ) -
          ((censusYears.getD 0 0 : ℕ) : ℝ))))) :=
  C1_factor_rounded (fun _ => 1) 0 (by norm_num) (by norm_num)

/-- C2: growth factor round-trip.  For a period with totals `s > 0` and
`e ≥ 0`, the recorded factor `f` (the 14-decimal rounding of `(e/s) ^ 0.2`)
compounds `s` back to `e` after `year_end - year_start = 5` multiplications,
up to the explicit tolerance introduced by the 14-decimal rounding:
`|s * f^5 - e| ≤ s * 5 * (r + ε)^4 * ε` with `r` the exact annual factor and
`ε = 5 * 10^(-15)` the worst-case rounding error. -/
theorem C2_round_trip (s e : ℝ) (hs : 0 < s) (he : 0 ≤ e) :
    ∃ f, calcular_crecimiento [s, e] = [some f] ∧
      |s * f ^ (5 : ℕ) - e| ≤
        s * 5 * ((e / s) ^ (0.2 : ℝ) + 1 / (2 * 10 ^ 14)) ^ (4 : ℕ) *
          (1 / (2 * 10 ^ 14)) := by
  refine ⟨round_dec 14 ((e / s) ^ (0.2 : ℝ)), ?_, ?_⟩
  · simp [calcular_crecimiento, hs]
  · have hr0 : 0 ≤ (e / s) ^ (0.2 : ℝ) := Real.rpow_nonneg (div_nonneg he hs.le) _
    generalize hrdef : (e / s) ^ (0.2 : ℝ) = r at *
    have hε0 : (0:ℝ) < 1 / (2 * 10 ^ 14) := by norm_num
    have hf0 : 0 ≤ round_dec 14 r := round_dec_nonneg _ hr0
    have herr : |round_dec 14 r - r| ≤ 1 / (2 * 10 ^ 14) := round_dec_abs_sub_le 14 r
    generalize hfdef : round_dec 14 r = f at *
    generalize hεdef : (1 : ℝ) / (2 * 10 ^ 14) = ε at *
    have hfle : f ≤ r + ε := by have := (abs_le.mp herr).2; linarith
    have hrle : r ≤ r + ε := by linarith
    have hr5 : r ^ (5 : ℕ) = e / s := by
      rw [← hrdef, show (0.2 : ℝ) = (((5:ℕ) : ℝ))⁻¹ by norm_num]
      exact Real.rpow_inv_natCast_pow (div_nonneg he hs.le) (by norm_num)
    have hsr : s * r ^ (5 : ℕ) = e := by rw [hr5]; field_simp
    have key : s * f ^ (5 : ℕ) - e =
        s * ((f - r) * (f^4 + f^3*r + f^2*r^2 + f*r^3 + r^4)) := by
      rw [← hsr]; ring
    rw [key, abs_mul, abs_of_pos hs, abs_mul]
    have hpoly0 : 0 ≤ f^4 + f^3*r + f^2*r^2 + f*r^3 + r^4 := by positivity
    rw [abs_of_nonneg hpoly0]
    have h1 : f^4 ≤ (r + ε)^4 := pow_le_pow_left₀ hf0 hfle 4
    have h2 : f^3*r ≤ (r + ε)^4 := by
      calc f^3*r ≤ (r + ε)^3 * (r + ε) :=
            mul_le_mul (pow_le_pow_left₀ hf0 hfle 3) hrle hr0 (by positivity)
        _ = (r + ε)^4 := by ring
    have h3 : f^2*r^2 ≤ (r + ε)^4 := by
      calc f^2*r^2 ≤ (r + ε)^2 * (r + ε)^2 :=
            mul_le_mul (pow_le_pow_left₀ hf0 hfle 2) (pow_le_pow_left₀ hr0 hrle 2)
              (by positivity) (by positivity)
        _ = (r + ε)^4 := by ring
    have h4 : f*r^3 ≤ (r + ε)^4 := by
      calc f*r^3 ≤ (r + ε) * (r + ε)^3 :=
            mul_le_mul hfle (pow_le_pow_left₀ hr0 hrle 3) (by positivity) (by linarith)
        _ = (r + ε)^4 := by ring
    have h5 : r^4 ≤ (r + ε)^4 := pow_le_pow_left₀ hr0 hrle 4
    have hpoly : f^4 + f^3*r + f^2*r^2 + f*r^3 + r^4 ≤ 5 * (r + ε)^4 := by linarith
    calc s * (|f - r| * (f^4 + f^3*r + f^2*r^2 + f*r^3 + r^4))
        ≤ s * (ε * (5 * (r + ε)^4)) := by
          apply mul_le_mul_of_nonneg_left _ hs.le
          exact mul_le_mul herr hpoly hpoly0 (by linarith)
      _ = s * 5 * (r + ε) ^ (4:ℕ) * ε := by ring

/-- Witness for `C2_round_trip` at `s = 1`, `e = 1`. -/
theorem C2_round_trip_witness :
    ∃ f, calcular_crecimiento [(1:ℝ), 1] = [some f] ∧
      |1 * f ^ (5 : ℕ) - 1| ≤
        1 * 5 * (((1:ℝ) / 1) ^ (0.2 : ℝ) + 1 / (2 * 10 ^ 14)) ^ (4 : ℕ) *
          (1 / (2 * 10 ^ 14)) :=
  C2_round_trip 1 1 (by norm_num) (by norm_num)

/-- `valor *= tasa` on float values that may be `NaN` (modelled as `none`):
a `NaN` factor or value poisons the product.  This is the arithmetic of the
runs `C3_year_coverage`/`C4_reconcile_2023`/`C6_extension_policies` quantify
over, where every factor cell read back from the DataFrame is a float or a
coerced `NaN`.  The object-dtype path, where `.loc` returns a Python `None`
and the multiplication raises `TypeError`, is modelled separately by
`mulCelda` below. -/
noncomputable def optMul : Option ℝ → Option ℝ → Option ℝ
  | some x, some y => some (x * y)
  | _, _ => none

/-- The inner loop of the compounder (`app.py` lines 1467-1477): for each
intermediate year, multiply the running value by the period factor and emit a
row. -/
noncomputable def fila_intermedias (tasa : Option ℝ) : Option ℝ → List ℕ → List (ℕ × Option ℝ)
  | _, [] => []
  | valor, anio :: rest =>
      (anio, optMul valor tasa) :: fila_intermedias tasa (optMul valor tasa) rest

/-- The annual-series compounder (`app.py` lines 1434-1477): for each
inter-census period `(a, b)` it emits the anchor row `(a, census value)`, then
— unless `b > 2019`, in which case the inner loop breaks immediately — one row
per year in `range(a+1, b)`, each obtained from the previous by `valor *= tasa`.
The closing census year `b` is emitted only as the next period's anchor; the
last census year is never emitted here. -/
noncomputable def df_proyeccion_rows :
    List (ℕ × ℝ) → List (Option ℝ) → List (ℕ × Option ℝ)
  | (a, v) :: (b, w) :: rest, tasa :: tasas =>
      ((a, some v) ::
        (if 2019 < b then []
         else fila_intermedias tasa (some v) (List.range' (a + 1) (b - (a + 1))))) ++
      df_proyeccion_rows ((b, w) :: rest) tasas
  | _, _ => []

theorem fila_intermedias_years (tasa : Option ℝ) (v : Option ℝ) (l : List ℕ) :
    (fila_intermedias tasa v l).map Prod.fst = l := by
  induction l generalizing v with
  | nil => simp [fila_intermedias]
  | cons a rest ih => simp [fila_intermedias, ih]

/-- The years emitted by the compounder on the canonical eight-census pivot:
exactly 1988, 1989, ..., 2018, in order, whatever the totals and factors. -/
theorem df_proyeccion_rows_years (v1 v2 v3 v4 v5 v6 v7 v8 : ℝ)
    (t1 t2 t3 t4 t5 t6 t7 : Option ℝ) :
    (df_proyeccion_rows
        [(1988, v1), (1993, v2), (1998, v3), (2003, v4),
         (2008, v5), (2013, v6), (2018, v7), (2023, v8)]
        [t1, t2, t3, t4, t5, t6, t7]).map Prod.fst = List.range' 1988 31 := by
  simp only [df_proyeccion_rows]
  norm_num
  simp only [List.map_append, List.map_cons, List.map_nil, fila_intermedias_years]
  decide

/-- C3 (amended): on the canonical pivot (census years 1988..2023), the
compounder emits exactly one row for every integer year in the closed interval
`[y_1, y_{n-1}] = [1988, 2018]`, in increasing order with no gaps and no
duplicates — not `[y_1, min(y_n, 2019)] = [1988, 2019]`: neither 2019 nor the
final census year is produced by this step (2019 comes from the 2018→2019
bridge, 2023 from the reconciliation row). -/
theorem C3_year_coverage (v1 v2 v3 v4 v5 v6 v7 v8 : ℝ)
    (t1 t2 t3 t4 t5 t6 t7 : Option ℝ) :
    (df_proyeccion_rows
        [(1988, v1), (1993, v2), (1998, v3), (2003, v4),
         (2008, v5), (2013, v6), (2018, v7), (2023, v8)]
        [t1, t2, t3, t4, t5, t6, t7]).map Prod.fst = List.range' 1988 31 :=
  df_proyeccion_rows_years v1 v2 v3 v4 v5 v6 v7 v8 t1 t2 t3 t4 t5 t6 t7

/-- C3, claim as stated, is false: year `2019 = min(2023, 2019)` lies in the
claimed closed coverage interval, yet the compounder emits no row for it (for
the final 2018→2023 gap the loop breaks before producing any intermediate
year). -/
theorem C3_counterexample :
    1988 ≤ 2019 ∧ 2019 ≤ min 2023 2019 ∧
      2019 ∉ (df_proyeccion_rows
        [(1988, (1:ℝ)), (1993, 1), (1998, 1), (2003, 1),
         (2008, 1), (2013, 1), (2018, 1), (2023, 1)]
        [some 1, some 1, some 1, some 1, some 1, some 1, some 1]).map Prod.fst := by
  refine ⟨by norm_num, by norm_num, ?_⟩
  rw [df_proyeccion_rows_years]
  decide

/-- The full population-activity projection table in insertion order
(`app.py` lines 1434-1654): compounded rows, then the 2019 bridge row, the
2020-2022 extension rows, and the 2023 reconciliation row read from the
`CE 2023` pivot totals column. -/
noncomputable def df_proyeccion_full (anchors : List (ℕ × ℝ)) (tasas : List (Option ℝ))
    (v2019 v2020 v2021 v2022 : Option ℝ) (ce2023 : ℝ) : List (ℕ × Option ℝ) :=
  df_proyeccion_rows anchors tasas ++
    [(2019, v2019), (2020, v2020), (2021, v2021), (2022, v2022), (2023, some ce2023)]

/-- The emitted value for year `y` after `sort_values` + `drop_duplicates`
keeping the last row per year (`app.py` lines 1700-1712): the last row carrying
year `y`. -/
def lookupKeepLast (rows : List (ℕ × Option ℝ)) (y : ℕ) : Option (Option ℝ) :=
  ((rows.filter (fun r => r.1 == y)).getLast?).map Prod.snd

/-- C4: for the canonical pivot, the emitted value at year 2023 is exactly the
`CE 2023` pivot totals entry, whatever the compounding, bridge and extension
steps produced (they never emit a 2023 row, and the reconciliation row is
appended last, so it is the surviving row after dedup-keep-last). -/
theorem C4_reconcile_2023 (v1 v2 v3 v4 v5 v6 v7 v8 : ℝ)
    (t1 t2 t3 t4 t5 t6 t7 : Option ℝ)
    (v2019 v2020 v2021 v2022 : Option ℝ) (ce2023 : ℝ) :
    lookupKeepLast
      (df_proyeccion_full
        [(1988, v1), (1993, v2), (1998, v3), (2003, v4),
         (2008, v5), (2013, v6), (2018, v7), (2023, v8)]
        [t1, t2, t3, t4, t5, t6, t7] v2019 v2020 v2021 v2022 ce2023) 2023 =
      some (some ce2023) := by
  unfold lookupKeepLast df_proyeccion_full
  rw [List.filter_append]
  have hnil : (df_proyeccion_rows
      [(1988, v1), (1993, v2), (1998, v3), (2003, v4),
       (2008, v5), (2013, v6), (2018, v7), (2023, v8)]
      [t1, t2, t3, t4, t5, t6, t7]).filter (fun r => r.1 == 2023) = [] := by
    rw [List.filter_eq_nil_iff]
    intro r hr
    have hmem : r.1 ∈ (df_proyeccion_rows
        [(1988, v1), (1993, v2), (1998, v3), (2003, v4),
         (2008, v5), (2013, v6), (2018, v7), (2023, v8)]
        [t1, t2, t3, t4, t5, t6, t7]).map Prod.fst :=
      List.mem_map_of_mem Prod.fst hr
    rw [df_proyeccion_rows_years] at hmem
    rw [List.mem_range'] at hmem
    obtain ⟨i, hi, hri⟩ := hmem
    simp only [beq_iff_eq]
    omega
  rw [hnil]
  simp

/-- A cell of the growth-factor DataFrame as read back by
`df_crecimiento.loc[...]`: a float, a `NaN` (a `None` entry coerced inside a
column that also holds a float), or a Python `None` (kept as-is when the
whole column is object dtype because every entry is `None`). -/
inductive Celda
  | val (x : ℝ)
  | nan
  | pyNone

/-- `pd.DataFrame(filas, ...)` dtype inference for one entry of a factor
column (`columna` is the full column across the metric rows of `filas`): a
float entry stays a float; a `None` entry stays Python `None` when every
entry of its column is `None` (object dtype), and is coerced to `NaN` when
the column also holds a float. -/
def coerceCelda (columna : List (Option ℝ)) (entry : Option ℝ) : Celda :=
  match entry with
  | some x => .val x
  | none => if columna.all (fun c => c.isNone) then .pyNone else .nan

/-- The factor cells a single-metric run reads back: each period's column
holds only that metric's entry. -/
def celdas_una_metrica (fila : List (Option ℝ)) : List Celda :=
  fila.map (fun e => coerceCelda [e] e)

/-- The factor cells the first metric row of a two-metric run reads back:
each period's column holds both metrics' entries. -/
def celdas_dos_metricas (fila otra : List (Option ℝ)) : List Celda :=
  List.zipWith (fun e o => coerceCelda [e, o] e) fila otra

/-- `valor_actual_ue *= tasa_ue` (`app.py` line 1472) with the factor cell as
pandas hands it back: multiplication by a float keeps a float (or an already
`NaN` value `NaN`), multiplication by `NaN` yields `NaN`, and multiplication
by a Python `None` raises `TypeError`. -/
noncomputable def mulCelda : Option ℝ → Celda → Except String (Option ℝ)
  | some y, .val x => Except.ok (some (y * x))
  | none, .val _ => Except.ok none
  | _, .nan => Except.ok none
  | _, .pyNone =>
      Except.error "TypeError: unsupported operand types for *=: float and NoneType"

/-- The inner compounder loop (lines 1467-1477) over pandas cells: the first
`TypeError` aborts the run. -/
noncomputable def fila_intermedias_celda (tasa : Celda) :
    Option ℝ → List ℕ → Except String (List (ℕ × Option ℝ))
  | _, [] => Except.ok []
  | valor, anio :: rest =>
      match mulCelda valor tasa with
      | Except.error e => Except.error e
      | Except.ok v =>
          match fila_intermedias_celda tasa v rest with
          | Except.error e => Except.error e
          | Except.ok l => Except.ok ((anio, v) :: l)

/-- The compounder (lines 1434-1477) over pandas cells, periods executed in
order; the first `TypeError` aborts the run. -/
noncomputable def df_proyeccion_rows_celda :
    List (ℕ × ℝ) → List Celda → Except String (List (ℕ × Option ℝ))
  | (a, v) :: (b, w) :: rest, tasa :: tasas =>
      match (if 2019 < b then Except.ok []
             else fila_intermedias_celda tasa (some v) (List.range' (a + 1) (b - (a + 1)))) with
      | Except.error e => Except.error e
      | Except.ok mids =>
          match df_proyeccion_rows_celda ((b, w) :: rest) tasas with
          | Except.error e => Except.error e
          | Except.ok tail => Except.ok (((a, some v) :: mids) ++ tail)
  | _, _ => Except.ok []

/-- C5, claim as stated, is false: with a zero starting census total the
compounder *does* raise.  In a single-metric run (the default UI
configuration) the period's factor column is all-`None`, so it keeps object
dtype, `.loc` returns Python `None`, and the first `valor_actual *= tasa`
of the period (line 1472) raises `TypeError` — here period 1993→1998 with
totals 0 and 100. -/
theorem C5_counterexample :
    df_proyeccion_rows_celda [(1993, (0:ℝ)), (1998, 100)]
        (celdas_una_metrica (calcular_crecimiento [0, 100])) =
      Except.error "TypeError: unsupported operand types for *=: float and NoneType" := by
  have hfac : calcular_crecimiento [(0:ℝ), 100] = [none] := by
    simp [calcular_crecimiento]
  rw [hfac]
  simp only [celdas_una_metrica, coerceCelda, List.map, List.all, Option.isNone]
  simp only [df_proyeccion_rows_celda]
  norm_num
  simp [List.range', fila_intermedias_celda, mulCelda]

/-- C5 (amended): with a zero starting total no division by zero occurs
(`calcular_crecimiento` records `None` instead of dividing), and the period
anchor keeps its census value `0`; but the series is not held flat, and
whether the compounder raises depends on the factor column's dtype: when the
column is all-`None` (e.g. only one metric is selected) the multiplication
raises `TypeError`, and when the other selected metric contributes a float
to the column the `None` is coerced to `NaN` and every intermediate year of
the period is emitted as a missing (`NaN`) value. -/
theorem C5_zero_base (w g : ℝ) :
    calcular_crecimiento [0, w] = [none] ∧
      df_proyeccion_rows_celda [(1993, (0:ℝ)), (1998, w)]
          (celdas_una_metrica (calcular_crecimiento [0, w])) =
        Except.error "TypeError: unsupported operand types for *=: float and NoneType" ∧
      df_proyeccion_rows_celda [(1993, (0:ℝ)), (1998, w)]
          (celdas_dos_metricas (calcular_crecimiento [0, w]) [some g]) =
        Except.ok
          [(1993, some 0), (1994, none), (1995, none), (1996, none), (1997, none)] := by
  have hfac : calcular_crecimiento [(0:ℝ), w] = [none] := by
    simp [calcular_crecimiento]
  refine ⟨hfac, ?_, ?_⟩ <;>
    · rw [hfac]
      simp only [celdas_una_metrica, celdas_dos_metricas, coerceCelda,
        List.map, List.zipWith, List.all, Option.isNone]
      simp only [df_proyeccion_rows_celda]
      norm_num
      simp [List.range', fila_intermedias_celda, mulCelda]

/-- 2020-2022 extension of the population-activity adapter
(`app.py` lines 1584-1618).  `lookup` models the `PROBABILIDADES.csv` filter
for the current entity/sector/stratum, returning that year's
`(SOBREVIVIENTES, NACIMIENTOS)` pair when a row exists.  All three year
branches of the source multiply the *fixed 2019 value* by the year's factor. -/
noncomputable def proyecciones_futuras (valor_2019_ue : ℝ)
    (lookup : ℕ → Option (ℝ × ℝ)) (anio_futuro : ℕ) : Option ℝ :=
  match lookup anio_futuro with
  | some (tasa_supervivencia, tasa_nacimientos) =>
      let factor_crecimiento := tasa_supervivencia + tasa_nacimientos
      if anio_futuro = 2020 then some (valor_2019_ue * factor_crecimiento)
      else if anio_futuro = 2021 then some (valor_2019_ue * factor_crecimiento)
      else some (valor_2019_ue * factor_crecimiento)
  | none => none

/-- One iteration of the natality adapter's 2020-2022 loop (`app.py` lines
2429-2464).  `lookupN` returns the year's `NACIMIENTOS` rate; the factor is the
ratio of this year's to the previous year's rate (the previous year clamped at
2020); 2020 instead multiplies the 2019 value by the fixed
`tasanat1998/tasanat1993` ratio.  Returns (stored value, updated running
`proyected_value`). -/
noncomputable def nat_step (valor_2019_ue tasanat1998 tasanat1993 : ℝ)
    (lookupN : ℕ → Option ℝ) (proyected_value : Option ℝ) (anio_futuro : ℕ) :
    Option ℝ × Option ℝ :=
  let anio_anterior := if anio_futuro - 1 < 2020 then 2020 else anio_futuro - 1
  match lookupN anio_futuro, lookupN anio_anterior with
  | some tasa_nacimientos_actual, some tasa_nacimientos_anterior =>
      let factor_crecimiento := tasa_nacimientos_actual / tasa_nacimientos_anterior
      let pv :=
        if anio_futuro = 2020 then some (valor_2019_ue * (tasanat1998 / tasanat1993))
        else optMul proyected_value (some factor_crecimiento)
      (pv, pv)
  | _, _ => (none, proyected_value)

/-- The natality adapter's 2020-2022 extension: the loop of `nat_step` over
`range(2020, 2023)` with the running `proyected_value` carried across
iterations. -/
noncomputable def proyecciones_futuras_nat (valor_2019_ue tasanat1998 tasanat1993 : ℝ)
    (lookupN : ℕ → Option ℝ) : List (ℕ × Option ℝ) :=
  let r20 := nat_step valor_2019_ue tasanat1998 tasanat1993 lookupN none 2020
  let r21 := nat_step valor_2019_ue tasanat1998 tasanat1993 lookupN r20.2 2021
  let r22 := nat_step valor_2019_ue tasanat1998 tasanat1993 lookupN r21.2 2022
  [(2020, r20.1), (2021, r21.1), (2022, r22.1)]

/-- C6: with all probability rows present, the population-activity adapter
computes each 2020-2022 units value as the *fixed 2019 value* times that
year's `(survivor_rate + birth_rate)` factor (no compounding), while the
natality adapter compounds its factors year-over-year onto a running value:
its 2021 value is the 2020 value times `n21/n20`, and its 2022 value is the
2021 value times `n22/n21`. -/
theorem C6_extension_policies (v vn t98 t93 s20 n20 s21 n21 s22 n22 b20 b21 b22 : ℝ)
    (L : ℕ → Option (ℝ × ℝ)) (LN : ℕ → Option ℝ)
    (h20 : L 2020 = some (s20, n20)) (h21 : L 2021 = some (s21, n21))
    (h22 : L 2022 = some (s22, n22))
    (hb20 : LN 2020 = some b20) (hb21 : LN 2021 = some b21)
    (hb22 : LN 2022 = some b22) :
    (proyecciones_futuras v L 2020 = some (v * (s20 + n20)) ∧
     proyecciones_futuras v L 2021 = some (v * (s21 + n21)) ∧
     proyecciones_futuras v L 2022 = some (v * (s22 + n22))) ∧
    proyecciones_futuras_nat vn t98 t93 LN =
      [(2020, some (vn * (t98 / t93))),
       (2021, some (vn * (t98 / t93) * (b21 / b20))),
       (2022, some (vn * (t98 / t93) * (b21 / b20) * (b22 / b21)))] := by
  refine ⟨⟨?_, ?_, ?_⟩, ?_⟩ <;>
    simp [proyecciones_futuras, proyecciones_futuras_nat, nat_step, optMul,
      h20, h21, h22, hb20, hb21, hb22]

/-- Witness for `C6_extension_policies` at concrete lookup tables. -/
theorem C6_extension_policies_witness :
    (proyecciones_futuras 7 (fun a => some ((a : ℝ), 1)) 2020 =
        some (7 * ((2020 : ℝ) + 1)) ∧
     proyecciones_futuras 7 (fun a => some ((a : ℝ), 1)) 2021 =
        some (7 * ((2021 : ℝ) + 1)) ∧
     proyecciones_futuras 7 (fun a => some ((a : ℝ), 1)) 2022 =
        some (7 * ((2022 : ℝ) + 1))) ∧
    proyecciones_futuras_nat 3 8 2 (fun a => some ((a : ℝ))) =
      [(2020, some (3 * ((8 : ℝ) / 2))),
       (2021, some (3 * ((8 : ℝ) / 2) * ((2021 : ℝ) / 2020))),
       (2022, some (3 * ((8 : ℝ) / 2) * ((2021 : ℝ) / 2020) * ((2022 : ℝ) / 2021)))] :=
  C6_extension_policies 7 3 8 2 2020 1 2021 1 2022 1 2020 2021 2022
    (fun a => some ((a : ℝ), 1)) (fun a => some ((a : ℝ)))
    rfl rfl rfl rfl rfl rfl

/-- The fixed four-element external multiplier sequence for 2019-2022
(`tasas_imss`, app.py lines 1480-1483). -/
noncomputable def tasas_imss : List ℝ := [1.0184, 0.9681, 1.0558, 1.0319]

/-- 2018→2019 personnel bridge (`app.py` lines 1539-1549): the 2018 value times
the first IMSS rate, with no averaging. -/
noncomputable def valor_2019_proyectado_po (valor_2018_po : ℝ) : ℝ :=
  valor_2018_po * tasas_imss.getD 0 0

/-- 2020-2022 personnel extension (`app.py` lines 1622-1635): the running
`valor_proyectado` is multiplied by the remaining three IMSS rates, one per
year, starting from the 2019 value. -/
noncomputable def proyecciones_futuras_po (valor_2019_po : ℝ) : List (ℕ × ℝ) :=
  let v2020 := valor_2019_po * tasas_imss.getD 1 0
  let v2021 := v2020 * tasas_imss.getD 2 0
  let v2022 := v2021 * tasas_imss.getD 3 0
  [(2020, v2020), (2021, v2021), (2022, v2022)]

/-- C7: the 2019 personnel value is the 2018 value times 1.0184 (the first
element of the fixed sequence `[1.0184, 0.9681, 1.0558, 1.0319]`), and the
2020-2022 personnel values multiply the running value cumulatively by the
remaining three elements, one per year, starting from the 2019 value. -/
theorem C7_imss_rates (valor_2018_po : ℝ) :
    tasas_imss = [1.0184, 0.9681, 1.0558, 1.0319] ∧
    valor_2019_proyectado_po valor_2018_po = valor_2018_po * 1.0184 ∧
    proyecciones_futuras_po (valor_2019_proyectado_po valor_2018_po) =
      [(2020, valor_2018_po * 1.0184 * 0.9681),
       (2021, valor_2018_po * 1.0184 * 0.9681 * 1.0558),
       (2022, valor_2018_po * 1.0184 * 0.9681 * 1.0558 * 1.0319)] := by
  refine ⟨rfl, ?_, ?_⟩ <;>
    simp [valor_2019_proyectado_po, proyecciones_futuras_po, tasas_imss]

/-- Per-row survival probability of the survival-at-k adapter (`app.py` lines
3014-3025): guarded by Python truthiness (a `0.0` births or survivors value is
falsy and the row is skipped), it computes `supervivientes / valor_inicial`,
clamps values above 1 down to 1, and stores the result rounded to 4 decimal
places. -/
noncomputable def probabilidad_sprv (supervivientes valor_inicial : ℝ) : Option ℝ :=
  if valor_inicial ≠ 0 ∧ supervivientes ≠ 0 then
    let probabilidad := supervivientes / valor_inicial
    some (round_dec 4 (if probabilidad > 1 then 1 else probabilidad))
  else none

/-- C8, claim as stated, is false: the stored probability is rounded to 4
decimal places, so it differs from `survivors / births` clamped at 1 whenever
that ratio is not a 4-decimal number — here survivors 1, births 3 store
`0.3333 ≠ 1/3`. -/
theorem C8_counterexample :
    probabilidad_sprv 1 3 = some (3333 / 10000 : ℝ) ∧
      (3333 / 10000 : ℝ) ≠ min 1 ((1 : ℝ) / 3) := by
  constructor
  · unfold probabilidad_sprv
    norm_num
    unfold round_dec
    have : round ((1 : ℝ) / 3 * 10 ^ 4) = 3333 := by
      rw [round_eq]
      apply Int.floor_eq_iff.mpr
      constructor <;> norm_num
    rw [this]
    norm_num
  · rw [min_eq_right (by norm_num : (1:ℝ)/3 ≤ 1)]
    norm_num

/-- C8 (amended): every survival probability the adapter stores equals
`min(1, survivors/births)` **rounded to 4 decimal places**; for non-negative
count inputs it satisfies `0 ≤ p ≤ 1`, ratios above 1 are clamped to exactly
1, and no stored value is negative. -/
theorem C8_probability_clamp (supervivientes valor_inicial : ℝ)
    (hs : 0 ≤ supervivientes) (hb : 0 ≤ valor_inicial) (p : ℝ)
    (hp : probabilidad_sprv supervivientes valor_inicial = some p) :
    p = round_dec 4 (min 1 (supervivientes / valor_inicial)) ∧
      0 ≤ p ∧ p ≤ 1 ∧
      (1 < supervivientes / valor_inicial → p = 1) := by
  unfold probabilidad_sprv at hp
  by_cases hg : valor_inicial ≠ 0 ∧ supervivientes ≠ 0
  · rw [if_pos hg] at hp
    simp only [Option.some_inj] at hp
    have hq0 : 0 ≤ supervivientes / valor_inicial := div_nonneg hs hb
    have hmin : (if supervivientes / valor_inicial > 1 then (1:ℝ)
        else supervivientes / valor_inicial) = min 1 (supervivientes / valor_inicial) := by
      rcases le_or_lt (supervivientes / valor_inicial) 1 with h | h
      · rw [if_neg (by linarith), min_eq_right h]
      · rw [if_pos h, min_eq_left h.le]
    rw [hmin] at hp
    refine ⟨hp.symm, ?_, ?_, ?_⟩
    · rw [← hp]; exact round_dec_nonneg _ (le_min (by norm_num) hq0)
    · rw [← hp]; exact round_dec_le_one _ (min_le_left _ _)
    · intro hgt
      rw [← hp, min_eq_left hgt.le, round_dec_one]
  · rw [if_neg hg] at hp
    exact absurd hp (by simp)

/-- Witness for `C8_probability_clamp`: survivors 5, births 2 (ratio above 1,
clamped). -/
theorem C8_probability_clamp_witness :
    (1 : ℝ) = round_dec 4 (min 1 ((5:ℝ) / 2)) ∧
      (0:ℝ) ≤ 1 ∧ (1:ℝ) ≤ 1 ∧ (1 < (5:ℝ) / 2 → (1:ℝ) = 1) :=
  C8_probability_clamp 5 2 (by norm_num) (by norm_num) 1
    (by unfold probabilidad_sprv
        norm_num
        rw [round_dec_one])

/-- Sliding-window upper bound of the mortality adapter (`app.py` line 5175):
for the `i`-th census at or after 1993, the survivor sum runs over the first
`(i+1)*5 + 1` pivot rows. -/
def limite_superior (i : ℕ) : ℕ := (i + 1) * 5 + 1

/-- Survivor count per census (`app.py` lines 5182-5187): the sum of the first
`limite_superior i` entries of the census's pivot column. -/
noncomputable def suma_sobrevivientes (col : List ℝ) (i : ℕ) : ℝ :=
  ((col.take (limite_superior i)).sum)

/-- Deaths per census (`app.py` lines 5245-5277): the active-series value at
positional index `i*5` (the Population-Activity projection table, whose row
`j` is year `1988 + j`) minus the survivor count, floored at 0; rows beyond
the active series are skipped. -/
noncomputable def resultados_finales (activos : List ℝ) (sobrevivientes : ℕ → ℝ)
    (i : ℕ) : Option ℝ :=
  if i * 5 < activos.length then
    some (if activos.getD (i * 5) 0 - sobrevivientes i < 0 then 0
          else activos.getD (i * 5) 0 - sobrevivientes i)
  else none

/-- Mortality rate (`app.py` lines 5695-5708): deaths in year `t` divided by
the active count of year `t-1`, times 100, rounded to 2 decimal places; only
computed when the active count is positive. -/
noncomputable def tasa_mortalidad (muertos activos_prev : ℝ) : Option ℝ :=
  if 0 < activos_prev then some (round_dec 2 (muertos / activos_prev * 100))
  else none

/-- C9, claim as stated, is false in its rate clause: the stored mortality
rate is rounded to 2 decimal places, so with deaths 1 and previous active
count 3 the stored rate is `33.33 ≠ 100/3`. -/
theorem C9_counterexample :
    tasa_mortalidad 1 3 = some (3333 / 100 : ℝ) ∧
      (3333 / 100 : ℝ) ≠ (1 : ℝ) / 3 * 100 := by
  constructor
  · unfold tasa_mortalidad
    rw [if_pos (by norm_num)]
    unfold round_dec
    have : round ((1 : ℝ) / 3 * 100 * 10 ^ 2) = 3333 := by
      rw [round_eq]
      apply Int.floor_eq_iff.mpr
      constructor <;> norm_num
    rw [this]
    norm_num
  · norm_num

/-- C9 (amended): the mortality adapter sums survivors over the first
`5*(i+1)+1` pivot rows, derives deaths as `max(0, active - survivors)` — in
particular never negative — with the active baseline taken from the
Population-Activity series, and stores the mortality rate
`deaths_t / active_(t-1) * 100` **rounded to 2 decimal places**. -/
theorem C9_mortality (col activos : List ℝ) (sobrevivientes : ℕ → ℝ)
    (i : ℕ) (hi : i * 5 < activos.length) (muertos activos_prev : ℝ)
    (hprev : 0 < activos_prev) :
    suma_sobrevivientes col i = ((col.take (5 * (i + 1) + 1)).sum) ∧
      resultados_finales activos sobrevivientes i =
        some (max 0 (activos.getD (i * 5) 0 - sobrevivientes i)) ∧
      (∀ d, resultados_finales activos sobrevivientes i = some d → 0 ≤ d) ∧
      tasa_mortalidad muertos activos_prev =
        some (round_dec 2 (muertos / activos_prev * 100)) := by
  have hres : resultados_finales activos sobrevivientes i =
      some (max 0 (activos.getD (i * 5) 0 - sobrevivientes i)) := by
    unfold resultados_finales
    rw [if_pos hi]
    congr 1
    rcases lt_or_le (activos.getD (i * 5) 0 - sobrevivientes i) 0 with h | h
    · rw [if_pos h, max_eq_left h.le]
    · rw [if_neg (not_lt.mpr h), max_eq_right h]
  refine ⟨?_, hres, ?_, ?_⟩
  · unfold suma_sobrevivientes limite_superior
    ring_nf
  · intro d hd
    rw [hres] at hd
    simp only [Option.some_inj] at hd
    rw [← hd]
    exact le_max_left _ _
  · unfold tasa_mortalidad
    rw [if_pos hprev]

/-- Witness for `C9_mortality` at a concrete pivot column, active series and
rate inputs. -/
theorem C9_mortality_witness :
    suma_sobrevivientes [(4:ℝ), 4] 0 = (([(4:ℝ), 4].take (5 * (0 + 1) + 1)).sum) ∧
      resultados_finales [(10:ℝ)] (fun _ => 4) 0 =
        some (max 0 ([(10:ℝ)].getD (0 * 5) 0 - 4)) ∧
      (∀ d, resultados_finales [(10:ℝ)] (fun _ => 4) 0 = some d → 0 ≤ d) ∧
      tasa_mortalidad 1 2 = some (round_dec 2 ((1:ℝ) / 2 * 100)) :=
  C9_mortality [(4:ℝ), 4] [(10:ℝ)] (fun _ => 4) 0 (by norm_num) 1 2 (by norm_num)

/-- The branch at `app.py` lines 1268-1311: when the filtered table is empty a
warning is shown and `tabla_formato` is never assigned; when no metric is
selected an informational message is shown and `tabla_formato` is likewise
never assigned; only the remaining branch binds it.  The `Option` models
whether the Python name `tabla_formato` is bound after the branch. -/
def tabla_formato_bind {α : Type} (filtrado_empty mostrar_personal mostrar_unidades : Bool)
    (pivote : α) : Option α :=
  if filtrado_empty then none
  else if mostrar_personal || mostrar_unidades then some pivote
  else none

/-- `app.py` line 1313, `matriz_principal = tabla_formato.copy()`: executed
unconditionally right after the branch; reading an unbound name raises
`NameError`. -/
def matriz_principal_step {α : Type} : Option α → Except String α
  | some tabla_formato => Except.ok tabla_formato
  | none => Except.error "NameError: name tabla_formato is not defined"

/-- Lines 1268-1313 chained: the branch followed by the unconditional
`matriz_principal` assignment. -/
def pipeline_matriz {α : Type} (filtrado_empty mostrar_personal mostrar_unidades : Bool)
    (pivote : α) : Except String α :=
  matriz_principal_step (tabla_formato_bind filtrado_empty mostrar_personal mostrar_unidades pivote)

/-- C10 is a code bug: on an empty filter result (and likewise when no metric
is selected) the script shows its warning/info message but does **not** stop;
execution reaches line 1313, which reads the never-assigned `tabla_formato`
and raises `NameError` instead of halting gracefully. -/
theorem C10_empty_filter_crashes :
    pipeline_matriz true true true (0 : ℕ) =
        Except.error "NameError: name tabla_formato is not defined" ∧
      pipeline_matriz false false false (0 : ℕ) =
        Except.error "NameError: name tabla_formato is not defined" ∧
      pipeline_matriz false true true (7 : ℕ) = Except.ok 7 := by
  exact ⟨rfl, rfl, rfl⟩

end Seirn
